import Mathlib

/-!
Verification of the PWM configuration solver of `src/src/App.tsx` (an
ATmega328P timer calculator).  The calculation core — the `calculation`
memo, lines 44–117 of `App.tsx` — is embedded below as pure Lean
functions: JavaScript numbers are modelled as exact rationals (`ℚ`),
`Math.round` as `jsRound` (floor of `x + 1/2`, JavaScript's
half-up rounding), and the result record as the `PWMResult` structure.
-/

namespace App

/-- JavaScript `Math.round`: nearest integer, halves toward positive infinity. -/
def jsRound (x : ℚ) : ℤ := ⌊x + 1 / 2⌋

/-- One register write, mirroring the object literals pushed onto `registers`
in `App.tsx` (name, hex value string, human-readable text). -/
structure Register where
  name : String
  value : String
  description : String
deriving DecidableEq

/-- The result record, mirroring the `PWMResult` interface of `App.tsx` lines 21–36. -/
structure PWMResult where
  timer : ℤ
  prescaler : ℤ
  top : ℤ
  ocr : ℤ
  frequency : ℚ
  actualFrequency : ℚ
  dutyCycle : ℚ
  actualDutyCycle : ℚ
  error : Option String
  registers : List Register
deriving DecidableEq

/-- JavaScript `parseInt(s, 2)` restricted to the binary literals used for the
clock-select codes. -/
def parseBin (s : String) : Nat :=
  s.data.foldl (fun a c => 2 * a + (if c = '1' then 1 else 0)) 0

/-- JavaScript `n.toString(16)` (lowercase hexadecimal) for naturals. -/
def natToHex (n : Nat) : String := (Nat.toDigits 16 n).asString

/-- JavaScript `i.toString(16)` for integers. -/
def intToHex (i : ℤ) : String :=
  if i < 0 then "-" ++ natToHex (-i).toNat else natToHex i.toNat

/-- JavaScript `s.toUpperCase()` for the ASCII strings produced here. -/
def upperStr (s : String) : String := String.mk (s.data.map Char.toUpper)

/-- Clock-select code for Timer 1, `App.tsx` line 68. -/
def csBits1 (N : ℤ) : String :=
  if N = 1 then "001" else if N = 8 then "010" else if N = 64 then "011"
  else if N = 256 then "100" else "101"

/-- Clock-select code for Timer 0 / Timer 2, `App.tsx` lines 76–78. -/
def csBits8 (selectedTimer N : ℤ) : String :=
  if selectedTimer = 0 then
    if N = 1 then "001" else if N = 8 then "010" else if N = 64 then "011"
    else if N = 256 then "100" else "101"
  else
    if N = 1 then "001" else if N = 8 then "010" else if N = 32 then "011"
    else if N = 64 then "100" else if N = 128 then "101"
    else if N = 256 then "110" else "111"

/-- The four register writes emitted for Timer 1, `App.tsx` lines 64–72. -/
def timer1Registers (N top ocr : ℤ) : List Register :=
  let csBits := csBits1 N
  [{ name := "TCCR1A", value := "0x82",
     description := "COM1A1=1, WGM11=1 (Fast PWM, Non-inverting)" },
   { name := "TCCR1B", value := "0x1" ++ natToHex (parseBin csBits),
     description := "WGM13=1, WGM12=1, CS=" ++ csBits ++ " (Prescaler " ++ toString N ++ ")" },
   { name := "ICR1", value := "0x" ++ upperStr (intToHex top),
     description := "TOP value for frequency (" ++ toString top ++ " decimal)" },
   { name := "OCR1A", value := "0x" ++ upperStr (intToHex (max 0 ocr)),
     description := "Duty cycle value (" ++ toString (max 0 ocr) ++ " decimal)" }]

/-- The four register writes emitted for Timer 0 or Timer 2, `App.tsx` lines 73–87. -/
def timer02Registers (selectedTimer N top ocr : ℤ) : List Register :=
  let csBits := csBits8 selectedTimer N
  let tccra := if selectedTimer = 0 then "0x23" else "0x23"
  let tccrb := "0x0" ++ natToHex (8 ||| parseBin csBits)
  [{ name := "TCCR" ++ toString selectedTimer ++ "A", value := tccra,
     description := "Fast PWM mode, OCnB non-inverting" },
   { name := "TCCR" ++ toString selectedTimer ++ "B", value := tccrb,
     description := "WGMn2=1, CS=" ++ csBits ++ " (Prescaler " ++ toString N ++ ")" },
   { name := "OCR" ++ toString selectedTimer ++ "A", value := "0x" ++ upperStr (intToHex top),
     description := "TOP value for frequency (" ++ toString top ++ " decimal)" },
   { name := "OCR" ++ toString selectedTimer ++ "B",
     value := "0x" ++ upperStr (intToHex (max 0 ocr)),
     description := "Duty cycle value (" ++ toString (max 0 ocr) ++ " decimal)" }]

/-- Candidate prescaler values in the order tried, `App.tsx` line 45. -/
def prescalers : List ℤ := [1, 8, 64, 256, 1024]

/-- Counter ceiling for the selected timer, `App.tsx` lines 48–49. -/
def maxTop (selectedTimer : ℤ) : ℤ := if selectedTimer = 1 then 65535 else 255

/-- TOP candidate for prescaler `N`: `Math.round(clockFreq / (N * targetFreq)) - 1`,
`App.tsx` line 54. -/
def topFor (clockFreq targetFreq : ℚ) (N : ℤ) : ℤ :=
  jsRound (clockFreq / (N * targetFreq)) - 1

/-- Output-compare value before clamping:
`Math.round(((top + 1) * dutyCycle) / 100) - 1`, `App.tsx` line 58. -/
def ocrFor (dutyCycle : ℚ) (top : ℤ) : ℤ :=
  jsRound (((top + 1) * dutyCycle) / 100) - 1

/-- The record built when prescaler `N` passes the range check,
`App.tsx` lines 57–100.  Note line 59: `actualDuty` divides the *unclamped*
`ocr`; the clamp `Math.max(0, ocr)` applies only to the stored `ocr` field and
the register values. -/
def mkSuccess (clockFreq targetFreq dutyCycle : ℚ) (selectedTimer N : ℤ) : PWMResult :=
  let top := topFor clockFreq targetFreq N
  let actualFreq := clockFreq / (N * (1 + (top : ℚ)))
  let ocr := ocrFor dutyCycle top
  let actualDuty := (((ocr : ℚ) + 1) / ((top : ℚ) + 1)) * 100
  let registers := if selectedTimer = 1 then timer1Registers N top ocr
    else timer02Registers selectedTimer N top ocr
  { timer := selectedTimer, prescaler := N, top := top, ocr := max 0 ocr,
    frequency := targetFreq, actualFrequency := actualFreq, dutyCycle := dutyCycle,
    actualDutyCycle := actualDuty, error := none, registers := registers }

/-- The Persian error message of `App.tsx` line 114. -/
def errorMessage : String :=
  "فرکانس درخواستی با این تایمر و فرکانس کلاک قابل دستیابی نیست. لطفاً فرکانس یا تایمر را تغییر دهید."

/-- The fallback record returned when no prescaler works, `App.tsx` lines 105–116. -/
def failureResult (targetFreq dutyCycle : ℚ) (selectedTimer : ℤ) : PWMResult :=
  { timer := selectedTimer, prescaler := 0, top := 0, ocr := 0,
    frequency := targetFreq, actualFrequency := 0, dutyCycle := dutyCycle,
    actualDutyCycle := 0, error := some errorMessage, registers := [] }

/-- The `for (const N of prescalers)` loop of `App.tsx` lines 51–103: try each
prescaler in order, stopping at the first whose TOP passes
`top > 0 && top <= maxTop`. -/
def searchLoop (clockFreq targetFreq dutyCycle : ℚ) (selectedTimer : ℤ) :
    List ℤ → Option PWMResult
  | [] => none
  | N :: rest =>
    let top := topFor clockFreq targetFreq N
    if 0 < top ∧ top ≤ maxTop selectedTimer then
      some (mkSuccess clockFreq targetFreq dutyCycle selectedTimer N)
    else
      searchLoop clockFreq targetFreq dutyCycle selectedTimer rest

/-- The full `calculation` memo of `App.tsx` lines 44–117:
`bestResult || fallback`. -/
def calculation (clockFreq targetFreq dutyCycle : ℚ) (selectedTimer : ℤ) : PWMResult :=
  (searchLoop clockFreq targetFreq dutyCycle selectedTimer prescalers).getD
    (failureResult targetFreq dutyCycle selectedTimer)

/-- Prescaler `N` passes the range check of `App.tsx` line 56 for these inputs. -/
def validCandidate (clockFreq targetFreq : ℚ) (selectedTimer N : ℤ) : Prop :=
  0 < topFor clockFreq targetFreq N ∧
    topFor clockFreq targetFreq N ≤ maxTop selectedTimer

instance (clockFreq targetFreq : ℚ) (selectedTimer N : ℤ) :
    Decidable (validCandidate clockFreq targetFreq selectedTimer N) := by
  unfold validCandidate
  infer_instance

lemma jsRound_le (x : ℚ) : (jsRound x : ℚ) ≤ x + 1 / 2 := by
  unfold jsRound
  exact_mod_cast Int.floor_le (x + 1 / 2)

lemma le_jsRound (x : ℚ) : x - 1 / 2 ≤ (jsRound x : ℚ) := by
  unfold jsRound
  have h := Int.lt_floor_add_one (x + 1 / 2)
  push_cast at h ⊢
  linarith

lemma jsRound_intCast (n : ℤ) : jsRound (n : ℚ) = n := by
  unfold jsRound
  rw [Int.floor_eq_iff]
  constructor <;> [skip; push_cast] <;> linarith

lemma topFor_eval (clockFreq targetFreq : ℚ) (N m : ℤ)
    (h : clockFreq / ((N : ℚ) * targetFreq) = (m : ℚ)) :
    topFor clockFreq targetFreq N = m - 1 := by
  unfold topFor
  rw [h, jsRound_intCast]

lemma ocrFor_eval (dutyCycle : ℚ) (top m : ℤ)
    (h : (((top : ℚ) + 1) * dutyCycle) / 100 = (m : ℚ)) :
    ocrFor dutyCycle top = m - 1 := by
  unfold ocrFor
  rw [h, jsRound_intCast]

@[simp] lemma mkSuccess_timer (cf tf dc : ℚ) (t N : ℤ) :
    (mkSuccess cf tf dc t N).timer = t := rfl

@[simp] lemma mkSuccess_prescaler (cf tf dc : ℚ) (t N : ℤ) :
    (mkSuccess cf tf dc t N).prescaler = N := rfl

@[simp] lemma mkSuccess_top (cf tf dc : ℚ) (t N : ℤ) :
    (mkSuccess cf tf dc t N).top = topFor cf tf N := rfl

@[simp] lemma mkSuccess_ocr (cf tf dc : ℚ) (t N : ℤ) :
    (mkSuccess cf tf dc t N).ocr = max 0 (ocrFor dc (topFor cf tf N)) := rfl

@[simp] lemma mkSuccess_frequency (cf tf dc : ℚ) (t N : ℤ) :
    (mkSuccess cf tf dc t N).frequency = tf := rfl

@[simp] lemma mkSuccess_actualFrequency (cf tf dc : ℚ) (t N : ℤ) :
    (mkSuccess cf tf dc t N).actualFrequency
      = cf / (N * (1 + (topFor cf tf N : ℚ))) := rfl

@[simp] lemma mkSuccess_dutyCycle (cf tf dc : ℚ) (t N : ℤ) :
    (mkSuccess cf tf dc t N).dutyCycle = dc := rfl

@[simp] lemma mkSuccess_actualDutyCycle (cf tf dc : ℚ) (t N : ℤ) :
    (mkSuccess cf tf dc t N).actualDutyCycle
      = (((ocrFor dc (topFor cf tf N) : ℚ) + 1) / ((topFor cf tf N : ℚ) + 1)) * 100 := rfl

@[simp] lemma mkSuccess_error (cf tf dc : ℚ) (t N : ℤ) :
    (mkSuccess cf tf dc t N).error = none := rfl

@[simp] lemma mkSuccess_registers (cf tf dc : ℚ) (t N : ℤ) :
    (mkSuccess cf tf dc t N).registers
      = if t = 1 then timer1Registers N (topFor cf tf N) (ocrFor dc (topFor cf tf N))
        else timer02Registers t N (topFor cf tf N) (ocrFor dc (topFor cf tf N)) := rfl

lemma mkSuccess_registers_ne_nil (cf tf dc : ℚ) (t N : ℤ) :
    (mkSuccess cf tf dc t N).registers ≠ [] := by
  rw [mkSuccess_registers]
  by_cases h : t = 1 <;> simp [h, timer1Registers, timer02Registers]

lemma searchLoop_eq_none (cf tf dc : ℚ) (t : ℤ) (l : List ℤ) :
    searchLoop cf tf dc t l = none ↔ ∀ N ∈ l, ¬ validCandidate cf tf t N := by
  induction l with
  | nil => simp [searchLoop]
  | cons a l ih =>
    by_cases h : validCandidate cf tf t a
    · unfold validCandidate at h
      simp only [searchLoop, if_pos h]
      constructor
      · intro hcontr
        exact (Option.some_ne_none _ hcontr).elim
      · intro hall
        exact (hall a (List.mem_cons_self a l) h).elim
    · unfold validCandidate at h
      simp only [searchLoop, if_neg h]
      rw [ih]
      constructor
      · intro hall N hN
        rcases List.mem_cons.mp hN with rfl | hN'
        · exact h
        · exact hall N hN'
      · intro hall N hN
        exact hall N (List.mem_cons_of_mem a hN)

lemma searchLoop_eq_some (cf tf dc : ℚ) (t : ℤ) (l : List ℤ)
    (hsorted : l.Pairwise (· < ·)) (r : PWMResult)
    (h : searchLoop cf tf dc t l = some r) :
    ∃ N ∈ l, validCandidate cf tf t N ∧ r = mkSuccess cf tf dc t N ∧
      ∀ M ∈ l, validCandidate cf tf t M → N ≤ M := by
  induction l with
  | nil => simp [searchLoop] at h
  | cons a l ih =>
    by_cases hv : validCandidate cf tf t a
    · have hv' := hv
      unfold validCandidate at hv'
      simp only [searchLoop, if_pos hv'] at h
      refine ⟨a, List.mem_cons_self a l, hv, (Option.some_injective _ h).symm, ?_⟩
      intro M hM _
      rcases List.mem_cons.mp hM with rfl | hM'
      · exact le_refl M
      · exact le_of_lt (List.rel_of_pairwise_cons hsorted hM')
    · have hv' := hv
      unfold validCandidate at hv'
      simp only [searchLoop, if_neg hv'] at h
      obtain ⟨N, hNmem, hNvalid, hreq, hmin⟩ := ih (List.Pairwise.sublist (l.sublist_cons_self a) hsorted) h
      refine ⟨N, List.mem_cons_of_mem a hNmem, hNvalid, hreq, ?_⟩
      intro M hM hMvalid
      rcases List.mem_cons.mp hM with rfl | hM'
      · exact absurd hMvalid hv
      · exact hmin M hM' hMvalid

lemma prescalers_sorted : prescalers.Pairwise (· < ·) := by decide

lemma calculation_of_exists (cf tf dc : ℚ) (t : ℤ)
    (h : ∃ N ∈ prescalers, validCandidate cf tf t N) :
    ∃ N ∈ prescalers, validCandidate cf tf t N ∧
      calculation cf tf dc t = mkSuccess cf tf dc t N ∧
      ∀ M ∈ prescalers, validCandidate cf tf t M → N ≤ M := by
  cases hs : searchLoop cf tf dc t prescalers with
  | none =>
    rw [searchLoop_eq_none] at hs
    obtain ⟨N, hNmem, hNvalid⟩ := h
    exact absurd hNvalid (hs N hNmem)
  | some r =>
    obtain ⟨N, hNmem, hNvalid, hreq, hmin⟩ :=
      searchLoop_eq_some cf tf dc t prescalers prescalers_sorted r hs
    refine ⟨N, hNmem, hNvalid, ?_, hmin⟩
    unfold calculation
    rw [hs, Option.getD_some, hreq]

lemma calculation_of_forall (cf tf dc : ℚ) (t : ℤ)
    (h : ∀ N ∈ prescalers, ¬ validCandidate cf tf t N) :
    calculation cf tf dc t = failureResult tf dc t := by
  unfold calculation
  rw [(searchLoop_eq_none cf tf dc t prescalers).mpr h, Option.getD_none]

lemma calculation_success (cf tf dc : ℚ) (t : ℤ)
    (h : (calculation cf tf dc t).error = none) :
    ∃ N ∈ prescalers, validCandidate cf tf t N ∧
      calculation cf tf dc t = mkSuccess cf tf dc t N ∧
      ∀ M ∈ prescalers, validCandidate cf tf t M → N ≤ M := by
  by_cases hex : ∃ N ∈ prescalers, validCandidate cf tf t N
  · exact calculation_of_exists cf tf dc t hex
  · push_neg at hex
    rw [calculation_of_forall cf tf dc t hex] at h
    exact absurd h (by simp [failureResult])

lemma calculation_failure (cf tf dc : ℚ) (t : ℤ)
    (h : (calculation cf tf dc t).error ≠ none) :
    calculation cf tf dc t = failureResult tf dc t := by
  by_cases hex : ∃ N ∈ prescalers, validCandidate cf tf t N
  · obtain ⟨N, _, _, hreq, _⟩ := calculation_of_exists cf tf dc t hex
    rw [hreq] at h
    exact absurd (mkSuccess_error cf tf dc t N) h
  · push_neg at hex
    exact calculation_of_forall cf tf dc t hex

lemma top_A_1 : topFor 16000000 1000 1 = 15999 :=
  (topFor_eval 16000000 1000 1 16000 (by norm_num)).trans (by decide)

lemma top_A_8 : topFor 16000000 1000 8 = 1999 :=
  (topFor_eval 16000000 1000 8 2000 (by norm_num)).trans (by decide)

lemma top_A_64 : topFor 16000000 1000 64 = 249 :=
  (topFor_eval 16000000 1000 64 250 (by norm_num)).trans (by decide)

lemma top_B_1 : topFor 16000000 1 1 = 15999999 :=
  (topFor_eval 16000000 1 1 16000000 (by norm_num)).trans (by decide)

lemma top_B_8 : topFor 16000000 1 8 = 1999999 :=
  (topFor_eval 16000000 1 8 2000000 (by norm_num)).trans (by decide)

lemma top_B_64 : topFor 16000000 1 64 = 249999 :=
  (topFor_eval 16000000 1 64 250000 (by norm_num)).trans (by decide)

lemma top_B_256 : topFor 16000000 1 256 = 62499 :=
  (topFor_eval 16000000 1 256 62500 (by norm_num)).trans (by decide)

lemma top_C_1 : topFor 16000000 (1 / 100) 1 = 1599999999 :=
  (topFor_eval 16000000 (1 / 100) 1 1600000000 (by norm_num)).trans (by decide)

lemma top_C_8 : topFor 16000000 (1 / 100) 8 = 199999999 :=
  (topFor_eval 16000000 (1 / 100) 8 200000000 (by norm_num)).trans (by decide)

lemma top_C_64 : topFor 16000000 (1 / 100) 64 = 24999999 :=
  (topFor_eval 16000000 (1 / 100) 64 25000000 (by norm_num)).trans (by decide)

lemma top_C_256 : topFor 16000000 (1 / 100) 256 = 6249999 :=
  (topFor_eval 16000000 (1 / 100) 256 6250000 (by norm_num)).trans (by decide)

lemma top_C_1024 : topFor 16000000 (1 / 100) 1024 = 1562499 :=
  (topFor_eval 16000000 (1 / 100) 1024 1562500 (by norm_num)).trans (by decide)

lemma ocr_fifty_15999 : ocrFor 50 15999 = 7999 :=
  (ocrFor_eval 50 15999 8000 (by norm_num)).trans (by decide)

lemma ocr_fifty_249 : ocrFor 50 249 = 124 :=
  (ocrFor_eval 50 249 125 (by norm_num)).trans (by decide)

lemma ocr_zero_249 : ocrFor 0 249 = -1 :=
  (ocrFor_eval 0 249 0 (by norm_num)).trans (by decide)

lemma calc_S1 : calculation 16000000 1000 50 1 = mkSuccess 16000000 1000 50 1 1 := by
  unfold calculation prescalers
  simp only [searchLoop, top_A_1]
  rw [if_pos (by decide)]
  rfl

lemma calc_S2 : calculation 16000000 1 50 1 = mkSuccess 16000000 1 50 1 256 := by
  unfold calculation prescalers
  simp only [searchLoop, top_B_1, top_B_8, top_B_64, top_B_256]
  rw [if_neg (by decide), if_neg (by decide), if_neg (by decide), if_pos (by decide)]
  rfl

lemma calc_S3 : calculation 16000000 1000 50 0 = mkSuccess 16000000 1000 50 0 64 := by
  unfold calculation prescalers
  simp only [searchLoop, top_A_1, top_A_8, top_A_64]
  rw [if_neg (by decide), if_neg (by decide), if_pos (by decide)]
  rfl

lemma calc_S4 : calculation 16000000 1000 50 2 = mkSuccess 16000000 1000 50 2 64 := by
  unfold calculation prescalers
  simp only [searchLoop, top_A_1, top_A_8, top_A_64]
  rw [if_neg (by decide), if_neg (by decide), if_pos (by decide)]
  rfl

lemma calc_S5 : calculation 16000000 1000 0 0 = mkSuccess 16000000 1000 0 0 64 := by
  unfold calculation prescalers
  simp only [searchLoop, top_A_1, top_A_8, top_A_64]
  rw [if_neg (by decide), if_neg (by decide), if_pos (by decide)]
  rfl

lemma no_valid_C : ∀ N ∈ prescalers, ¬ validCandidate 16000000 (1 / 100) 1 N := by
  intro N hN
  simp only [prescalers, List.mem_cons, List.not_mem_nil, or_false] at hN
  unfold validCandidate
  rcases hN with rfl | rfl | rfl | rfl | rfl
  · rw [top_C_1]; decide
  · rw [top_C_8]; decide
  · rw [top_C_64]; decide
  · rw [top_C_256]; decide
  · rw [top_C_1024]; decide

lemma calc_S6 : calculation 16000000 (1 / 100) 50 1 = failureResult (1 / 100) 50 1 :=
  calculation_of_forall 16000000 (1 / 100) 50 1 no_valid_C

/-- Claim C1: whenever at least one candidate prescaler yields a TOP in the
valid range (`0 < top ≤ maxTop`), the solver succeeds and its selected
prescaler is the smallest valid candidate — never a larger one, even if a
larger prescaler would also yield a valid TOP. -/
theorem C1_smallest_valid_prescaler (cf tf dc : ℚ) (t : ℤ)
    (h : ∃ N ∈ prescalers, validCandidate cf tf t N) :
    (calculation cf tf dc t).error = none ∧
    (calculation cf tf dc t).prescaler ∈ prescalers ∧
    validCandidate cf tf t ((calculation cf tf dc t).prescaler) ∧
    ∀ N ∈ prescalers, validCandidate cf tf t N →
      (calculation cf tf dc t).prescaler ≤ N := by
  obtain ⟨N, hNmem, hNvalid, hreq, hmin⟩ := calculation_of_exists cf tf dc t h
  rw [hreq]
  simp only [mkSuccess_error, mkSuccess_prescaler]
  exact ⟨trivial, hNmem, hNvalid, hmin⟩

lemma valid_S1 : validCandidate 16000000 1000 1 1 := by
  unfold validCandidate
  rw [top_A_1]
  decide

/-- Witness for claim C1 at clock 16 MHz, target 1 kHz, Timer 1: prescaler 1
is valid and the solver picks a smallest valid candidate. -/
theorem C1_smallest_valid_prescaler_witness :
    (∃ N ∈ prescalers, validCandidate 16000000 1000 1 N) ∧
    ((calculation 16000000 1000 50 1).error = none ∧
     (calculation 16000000 1000 50 1).prescaler ∈ prescalers ∧
     validCandidate 16000000 1000 1 ((calculation 16000000 1000 50 1).prescaler) ∧
     ∀ N ∈ prescalers, validCandidate 16000000 1000 1 N →
       (calculation 16000000 1000 50 1).prescaler ≤ N) :=
  ⟨⟨1, by decide, valid_S1⟩,
   C1_smallest_valid_prescaler 16000000 1000 50 1 ⟨1, by decide, valid_S1⟩⟩

/-- Claim C2 counterexample: for clock 16 MHz, target 1 Hz, duty 50, Timer 1
the solver does not return prescaler 1024 with top 15624 (prescaler 256
already yields a valid top, and the ascending search stops there). -/
theorem C2_counterexample :
    ¬ ((calculation 16000000 1 50 1).prescaler = 1024 ∧
       (calculation 16000000 1 50 1).top = 15624) := by
  rw [calc_S2]
  intro hcontr
  exact absurd hcontr.1 (by decide)

/-- Claim C2 amended: for clock 16 MHz, target 1 Hz, duty 50, Timer 1 the
solver returns prescaler 256, top = round(16000000/256) − 1 = 62499, and
actualFrequency = 16000000/(256 × 62500) = 1 Hz exactly. -/
theorem C2_amended_scenario :
    (calculation 16000000 1 50 1).prescaler = 256 ∧
    (calculation 16000000 1 50 1).top = 62499 ∧
    (calculation 16000000 1 50 1).actualFrequency = 16000000 / (256 * 62500) ∧
    (calculation 16000000 1 50 1).actualFrequency = 1 ∧
    (calculation 16000000 1 50 1).error = none := by
  rw [calc_S2]
  refine ⟨rfl, ?_, ?_, ?_, rfl⟩
  · rw [mkSuccess_top, top_B_256]
  · rw [mkSuccess_actualFrequency, top_B_256]
    norm_num
  · rw [mkSuccess_actualFrequency, top_B_256]
    norm_num

/-- Claim C3 counterexample: at clock 16 MHz, target 1 kHz both Timer 0 and
Timer 2 succeed with the same prescaler 64, yet the 3-bit clock-select codes
embedded in their control-register-B values differ: Timer 0 uses 011
(TCCR0B = 0x0b) while Timer 2 uses 100 (TCCR2B = 0x0c). -/
theorem C3_counterexample :
    (calculation 16000000 1000 50 0).error = none ∧
    (calculation 16000000 1000 50 2).error = none ∧
    (calculation 16000000 1000 50 0).prescaler = 64 ∧
    (calculation 16000000 1000 50 2).prescaler = 64 ∧
    csBits8 0 64 = "011" ∧ csBits8 2 64 = "100" ∧ csBits8 0 64 ≠ csBits8 2 64 ∧
    ((calculation 16000000 1000 50 0).registers.map Register.value)[1]? = some "0x0b" ∧
    ((calculation 16000000 1000 50 2).registers.map Register.value)[1]? = some "0x0c" := by
  rw [calc_S3, calc_S4]
  refine ⟨rfl, rfl, rfl, rfl, by decide, by decide, by decide, ?_, ?_⟩
  · rw [mkSuccess_registers, if_neg (by decide), top_A_64, ocr_fifty_249]
    decide
  · rw [mkSuccess_registers, if_neg (by decide), top_A_64, ocr_fifty_249]
    decide

/-- Claim C3 amended: for successful Timer 0 and Timer 2 calculations that
select the same prescaler N, the 3-bit clock-select codes of the two timers
agree exactly when N ∈ \x7b1, 8\x7d; at the searched positions 64, 256 and
1024 they differ, because Timer 2's table inserts codes for 32 and 128. -/
theorem C3_amended_cs_codes (cf tf dc cg tg dg : ℚ) (N : ℤ)
    (h0 : (calculation cf tf dc 0).error = none)
    (_h2 : (calculation cg tg dg 2).error = none)
    (hp0 : (calculation cf tf dc 0).prescaler = N)
    (_hp2 : (calculation cg tg dg 2).prescaler = N) :
    csBits8 0 N = csBits8 2 N ↔ (N = 1 ∨ N = 8) := by
  obtain ⟨M, hMmem, -, hreq, -⟩ := calculation_success cf tf dc 0 h0
  rw [hreq, mkSuccess_prescaler] at hp0
  subst hp0
  simp only [prescalers, List.mem_cons, List.not_mem_nil, or_false] at hMmem
  rcases hMmem with rfl | rfl | rfl | rfl | rfl <;> decide

/-- Witness for the amended claim C3 at prescaler 64 (both timers succeed on
clock 16 MHz, target 1 kHz): the codes are not shared since 64 ∉ \x7b1, 8\x7d. -/
theorem C3_amended_cs_codes_witness :
    (calculation 16000000 1000 50 0).error = none ∧
    (calculation 16000000 1000 50 2).error = none ∧
    (calculation 16000000 1000 50 0).prescaler = 64 ∧
    (calculation 16000000 1000 50 2).prescaler = 64 ∧
    (csBits8 0 64 = csBits8 2 64 ↔ ((64 : ℤ) = 1 ∨ (64 : ℤ) = 8)) :=
  ⟨by rw [calc_S3]; rfl, by rw [calc_S4]; rfl, by rw [calc_S3]; rfl, by rw [calc_S4]; rfl,
   C3_amended_cs_codes 16000000 1000 50 16000000 1000 50 64
     (by rw [calc_S3]; rfl) (by rw [calc_S4]; rfl) (by rw [calc_S3]; rfl) (by rw [calc_S4]; rfl)⟩

/-- Claim C4 counterexample: at clock 16 MHz, target 1 kHz, duty 0, Timer 0
the pre-clamp ocr is −1 and the stored ocr is clamped to 0, but the returned
actualDutyCycle is computed from the *unclamped* ocr, so it equals 0 exactly
and differs from ((0 + 1)/(top + 1)) × 100. -/
theorem C4_counterexample :
    (calculation 16000000 1000 0 0).top = 249 ∧
    ocrFor 0 ((calculation 16000000 1000 0 0).top) = -1 ∧
    (calculation 16000000 1000 0 0).ocr = 0 ∧
    (calculation 16000000 1000 0 0).actualDutyCycle = 0 ∧
    (calculation 16000000 1000 0 0).actualDutyCycle
      ≠ ((0 + 1) / (((calculation 16000000 1000 0 0).top : ℚ) + 1)) * 100 := by
  rw [calc_S5]
  have htop : (mkSuccess 16000000 1000 0 0 64).top = 249 := by
    rw [mkSuccess_top, top_A_64]
  refine ⟨htop, ?_, ?_, ?_, ?_⟩
  · rw [htop, ocr_zero_249]
  · rw [mkSuccess_ocr, top_A_64, ocr_zero_249]
    decide
  · rw [mkSuccess_actualDutyCycle, top_A_64, ocr_zero_249]
    norm_num
  · rw [mkSuccess_actualDutyCycle, top_A_64, ocr_zero_249, htop]
    norm_num

/-- Claim C4 amended: for clock 16 MHz, target 1 kHz, duty 0, Timer 0 the
computed ocr is −1 before clamping and the returned ocr field is clamped
to 0, while the returned actualDutyCycle is computed from the unclamped ocr
as ((−1 + 1)/(top + 1)) × 100 — i.e. it is exactly 0, not strictly positive. -/
theorem C4_amended_duty_zero :
    (calculation 16000000 1000 0 0).top = 249 ∧
    ocrFor 0 ((calculation 16000000 1000 0 0).top) = -1 ∧
    (calculation 16000000 1000 0 0).ocr = 0 ∧
    (calculation 16000000 1000 0 0).actualDutyCycle
      = (((-1 : ℚ) + 1) / (((calculation 16000000 1000 0 0).top : ℚ) + 1)) * 100 ∧
    (calculation 16000000 1000 0 0).actualDutyCycle = 0 := by
  rw [calc_S5]
  have htop : (mkSuccess 16000000 1000 0 0 64).top = 249 := by
    rw [mkSuccess_top, top_A_64]
  refine ⟨htop, ?_, ?_, ?_, ?_⟩
  · rw [htop, ocr_zero_249]
  · rw [mkSuccess_ocr, top_A_64, ocr_zero_249]
    decide
  · rw [mkSuccess_actualDutyCycle, top_A_64, ocr_zero_249, htop]
    norm_num
  · rw [mkSuccess_actualDutyCycle, top_A_64, ocr_zero_249]
    norm_num

/-- Claim C5: for every input, the returned record has `error = none` exactly
when its `registers` list is non-empty and its `top` field is positive. -/
theorem C5_error_iff_registers_and_top (cf tf dc : ℚ) (t : ℤ) :
    (calculation cf tf dc t).error = none ↔
      ((calculation cf tf dc t).registers ≠ [] ∧ 0 < (calculation cf tf dc t).top) := by
  by_cases hex : ∃ N ∈ prescalers, validCandidate cf tf t N
  · obtain ⟨N, hNmem, hNvalid, hreq, -⟩ := calculation_of_exists cf tf dc t hex
    rw [hreq]
    simp only [mkSuccess_error, mkSuccess_top]
    exact ⟨fun _ => ⟨mkSuccess_registers_ne_nil cf tf dc t N, hNvalid.1⟩, fun _ => trivial⟩
  · push_neg at hex
    rw [calculation_of_forall cf tf dc t hex]
    simp [failureResult]

/-- Claim C6: when no candidate prescaler yields a TOP in the valid range,
the record carries the error message, empty registers, zero top/ocr/
actualFrequency, and preserves the requested frequency and duty cycle. -/
theorem C6_unachievable_record (cf tf dc : ℚ) (t : ℤ)
    (h : ∀ N ∈ prescalers, ¬ validCandidate cf tf t N) :
    (calculation cf tf dc t).error = some errorMessage ∧
    (calculation cf tf dc t).registers = [] ∧
    (calculation cf tf dc t).top = 0 ∧
    (calculation cf tf dc t).ocr = 0 ∧
    (calculation cf tf dc t).actualFrequency = 0 ∧
    (calculation cf tf dc t).frequency = tf ∧
    (calculation cf tf dc t).dutyCycle = dc := by
  rw [calculation_of_forall cf tf dc t h]
  exact ⟨rfl, rfl, rfl, rfl, rfl, rfl, rfl⟩

/-- Witness for claim C6 at clock 16 MHz, target 0.01 Hz, Timer 1: every
candidate overshoots the 16-bit ceiling and the failure record is returned. -/
theorem C6_unachievable_record_witness :
    (∀ N ∈ prescalers, ¬ validCandidate 16000000 (1 / 100) 1 N) ∧
    ((calculation 16000000 (1 / 100) 50 1).error = some errorMessage ∧
     (calculation 16000000 (1 / 100) 50 1).registers = [] ∧
     (calculation 16000000 (1 / 100) 50 1).top = 0 ∧
     (calculation 16000000 (1 / 100) 50 1).ocr = 0 ∧
     (calculation 16000000 (1 / 100) 50 1).actualFrequency = 0 ∧
     (calculation 16000000 (1 / 100) 50 1).frequency = 1 / 100 ∧
     (calculation 16000000 (1 / 100) 50 1).dutyCycle = 50) :=
  ⟨no_valid_C, C6_unachievable_record 16000000 (1 / 100) 50 1 no_valid_C⟩

/-- Claim C7: for clock 16 MHz, target 1 kHz, duty 50, Timer 1 the solver
returns prescaler 1, top 15999, ocr 7999, actualFrequency exactly 1000 Hz,
and no error. -/
theorem C7_scenario_one :
    (calculation 16000000 1000 50 1).prescaler = 1 ∧
    (calculation 16000000 1000 50 1).top = 15999 ∧
    (calculation 16000000 1000 50 1).ocr = 7999 ∧
    (calculation 16000000 1000 50 1).actualFrequency = 1000 ∧
    (calculation 16000000 1000 50 1).error = none := by
  rw [calc_S1]
  refine ⟨rfl, ?_, ?_, ?_, rfl⟩
  · rw [mkSuccess_top, top_A_1]
  · rw [mkSuccess_ocr, top_A_1, ocr_fifty_15999]
    decide
  · rw [mkSuccess_actualFrequency, top_A_1]
    norm_num

/-- Claim C8: every successful calculation selects a TOP with
`0 < top ≤ 65535` for Timer 1 and `0 < top ≤ 255` for Timer 0 or Timer 2. -/
theorem C8_top_within_bit_width (cf tf dc : ℚ) (t : ℤ)
    (h : (calculation cf tf dc t).error = none) :
    (t = 1 → 0 < (calculation cf tf dc t).top ∧ (calculation cf tf dc t).top ≤ 65535) ∧
    ((t = 0 ∨ t = 2) → 0 < (calculation cf tf dc t).top ∧ (calculation cf tf dc t).top ≤ 255) := by
  obtain ⟨N, hNmem, hNvalid, hreq, -⟩ := calculation_success cf tf dc t h
  rw [hreq]
  simp only [mkSuccess_top]
  obtain ⟨h1, h2⟩ := hNvalid
  constructor
  · intro ht
    subst ht
    exact ⟨h1, by simpa [maxTop] using h2⟩
  · rintro (ht | ht) <;> subst ht <;> exact ⟨h1, by simpa [maxTop] using h2⟩

/-- Witness for claim C8 at clock 16 MHz, target 1 kHz, Timer 1. -/
theorem C8_top_within_bit_width_witness :
    (calculation 16000000 1000 50 1).error = none ∧
    (((1 : ℤ) = 1 → 0 < (calculation 16000000 1000 50 1).top ∧
        (calculation 16000000 1000 50 1).top ≤ 65535) ∧
     (((1 : ℤ) = 0 ∨ (1 : ℤ) = 2) → 0 < (calculation 16000000 1000 50 1).top ∧
        (calculation 16000000 1000 50 1).top ≤ 255)) :=
  ⟨by rw [calc_S1]; rfl, C8_top_within_bit_width 16000000 1000 50 1 (by rw [calc_S1]; rfl)⟩

/-- Claim C9: for every successful calculation with positive clock and target
frequencies, the relative frequency error is at most `1 / top`. -/
theorem C9_relative_error_bound (cf tf dc : ℚ) (t : ℤ)
    (_hcf : 0 < cf) (htf : 0 < tf)
    (h : (calculation cf tf dc t).error = none) :
    |(calculation cf tf dc t).actualFrequency - tf| / tf
      ≤ 1 / ((calculation cf tf dc t).top : ℚ) := by
  obtain ⟨N, hNmem, hNvalid, hreq, -⟩ := calculation_success cf tf dc t h
  rw [hreq]
  simp only [mkSuccess_actualFrequency, mkSuccess_top]
  have hNpos : (0 : ℤ) < N := by
    have hall : ∀ M ∈ prescalers, (0 : ℤ) < M := by decide
    exact hall N hNmem
  obtain ⟨htop, -⟩ := hNvalid
  set x : ℚ := cf / ((N : ℚ) * tf) with hx
  have htopFor : topFor cf tf N = jsRound x - 1 := rfl
  set r : ℤ := jsRound x with hrdef
  rw [htopFor]
  have hr2 : (2 : ℤ) ≤ r := by
    rw [htopFor] at htop
    omega
  have hNQ : (0 : ℚ) < (N : ℚ) := by exact_mod_cast hNpos
  have hr2Q : (2 : ℚ) ≤ (r : ℚ) := by exact_mod_cast hr2
  have hrQ : (0 : ℚ) < (r : ℚ) := by linarith
  have hr1Q : (0 : ℚ) < (r : ℚ) - 1 := by linarith
  have hub : (r : ℚ) ≤ x + 1 / 2 := jsRound_le x
  have hlb : x - 1 / 2 ≤ (r : ℚ) := le_jsRound x
  have habs : |x - (r : ℚ)| ≤ 1 / 2 := abs_le.mpr ⟨by linarith, by linarith⟩
  have hcast : ((r - 1 : ℤ) : ℚ) = (r : ℚ) - 1 := by push_cast; ring
  have hden : (N : ℚ) * (1 + ((r - 1 : ℤ) : ℚ)) = (N : ℚ) * (r : ℚ) := by
    rw [hcast]; ring
  rw [hden, hcast]
  have hAval : cf / ((N : ℚ) * (r : ℚ)) - tf = tf * (x - (r : ℚ)) / (r : ℚ) := by
    rw [hx]
    field_simp
    ring
  rw [hAval, abs_div, abs_mul, abs_of_pos htf, abs_of_pos hrQ]
  rw [div_le_div_iff₀ (by positivity) hr1Q]
  have hkey : |x - (r : ℚ)| * ((r : ℚ) - 1) ≤ (1 / 2) * ((r : ℚ) - 1) :=
    mul_le_mul_of_nonneg_right habs (le_of_lt hr1Q)
  rw [div_mul_eq_mul_div, div_le_iff₀ hrQ]
  nlinarith [htf, hr2Q, hkey, abs_nonneg (x - (r : ℚ))]

/-- Witness for claim C9 at clock 16 MHz, target 1 kHz, Timer 1. -/
theorem C9_relative_error_bound_witness :
    (0 : ℚ) < 16000000 ∧ (0 : ℚ) < 1000 ∧
    (calculation 16000000 1000 50 1).error = none ∧
    |(calculation 16000000 1000 50 1).actualFrequency - 1000| / 1000
      ≤ 1 / ((calculation 16000000 1000 50 1).top : ℚ) :=
  ⟨by norm_num, by norm_num, by rw [calc_S1]; rfl,
   C9_relative_error_bound 16000000 1000 50 1 (by norm_num) (by norm_num) (by rw [calc_S1]; rfl)⟩

/-- Claim C10: whenever the calculation fails (`error` non-null), the
returned record also zeroes `prescaler` and `actualDutyCycle`, while still
preserving the requested frequency and duty cycle. -/
theorem C10_failure_zeroes_all_fields (cf tf dc : ℚ) (t : ℤ)
    (h : (calculation cf tf dc t).error ≠ none) :
    (calculation cf tf dc t).prescaler = 0 ∧
    (calculation cf tf dc t).actualDutyCycle = 0 ∧
    (calculation cf tf dc t).frequency = tf ∧
    (calculation cf tf dc t).dutyCycle = dc := by
  rw [calculation_failure cf tf dc t h]
  exact ⟨rfl, rfl, rfl, rfl⟩

/-- Witness for claim C10 at clock 16 MHz, target 0.01 Hz, Timer 1. -/
theorem C10_failure_zeroes_all_fields_witness :
    (calculation 16000000 (1 / 100) 50 1).error ≠ none ∧
    ((calculation 16000000 (1 / 100) 50 1).prescaler = 0 ∧
     (calculation 16000000 (1 / 100) 50 1).actualDutyCycle = 0 ∧
     (calculation 16000000 (1 / 100) 50 1).frequency = 1 / 100 ∧
     (calculation 16000000 (1 / 100) 50 1).dutyCycle = 50) :=
  ⟨by rw [calc_S6]; simp [failureResult],
   C10_failure_zeroes_all_fields 16000000 (1 / 100) 50 1
     (by rw [calc_S6]; simp [failureResult])⟩

end App
